import Mathlib

/-!
Shallow embedding of the retrieval core of the rag_chatbot repository.

Source files modelled:
- src/document_processor.py  (DocumentProcessor: load_documents, load_directory,
  split_documents, process_documents)
- src/rag_chain.py           (RAGChain.query)
- src/vector_store.py        (VectorStore: add_documents, similarity_search,
  delete_collection)
- src/vector_store_completely_free.py (the free VectorStore variant with the
  embedding-model fallback and the exception-catching search)
- src/app_local.py           (simple_rag_response)

External collaborators (the langchain text splitter, the Chroma index, the
OpenAI chat model, the HuggingFace embedding model, the filesystem) are not
part of the repository source; they enter the embedding either as explicit
function parameters (so a theorem quantifies over every possible behaviour of
the collaborator) or, where a claim needs their concrete behaviour, as
definitions modelled from the spec and marked as such in their doc comment.
-/

namespace Rag

/-- A loaded document or chunk: page content plus provenance metadata
(src/document_processor.py uses langchain Document objects whose metadata
carries at minimum the source path). -/
structure Document where
  pageContent : String
  source : String
deriving DecidableEq

/-! ## Chunker (claim C1)

The text splitter used by DocumentProcessor (src/document_processor.py lines
11-15 and 52-55) is langchain RecursiveCharacterTextSplitter, an external
library whose code is not in the repository source tree. -/

/-- Modelled from the spec: the text-splitting algorithm itself is supplied by
the external langchain library (RecursiveCharacterTextSplitter) and is absent
from the source tree. This definition follows the overlap-emission rule of
spec section 4.1: emit chunks of at most chunk_size characters and start each
following chunk by re-including the trailing chunk_overlap characters of the
previous chunk, at character granularity (the last-resort character split of
the spec). The fuel argument bounds the recursion; `splitText` supplies
enough fuel for the whole input. -/
def splitTextAux (S O : Nat) : Nat → List Char → List (List Char)
  | 0, s => [s]
  | fuel + 1, s =>
    if s.length ≤ S then [s]
    else s.take S :: splitTextAux S O fuel (s.drop (S - O))

/-- Modelled from the spec: split one text into chunks of size at most `S`
with overlap `O` between consecutive chunks. -/
def splitText (S O : Nat) (s : List Char) : List (List Char) :=
  splitTextAux S O s.length s

/-- Every emitted chunk has at most `S` characters. -/
def chunksWithinSize (S : Nat) (cs : List (List Char)) : Bool :=
  cs.all (fun c => decide (c.length ≤ S))

/-- For every two chunks adjacent in emission order, the last `O` characters
of the first chunk equal the first `O` characters of the second chunk. -/
def overlapOk (O : Nat) : List (List Char) → Bool
  | a :: b :: rest => (a.drop (a.length - O) == b.take O) && overlapOk O (b :: rest)
  | _ => true

/-- DocumentProcessor.split_documents (src/document_processor.py lines 52-55):
split each document independently and concatenate the per-document chunk
lists in order, each chunk inheriting the metadata of its document. -/
def split_documents (S O : Nat) (docs : List Document) : List Document :=
  docs.flatMap fun d =>
    (splitText S O d.pageContent.data).map fun cs => ⟨String.mk cs, d.source⟩

/-! ## Document loading (claims C7, C10) -/

/-- Python str.endswith, expressed on the underlying character list. -/
def endswith (s suf : String) : Bool :=
  suf.data.isSuffixOf s.data

/-- DocumentProcessor.load_documents (src/document_processor.py lines 17-27):
dispatch on the file extension; a path ending in neither .pdf nor .txt raises
ValueError with the message below. The two loader calls (PyPDFLoader.load,
TextLoader.load) are external library calls passed in as parameters; the
function returns whatever documents the selected loader extracts, with no
check on the extracted content. -/
def load_documents (pdfLoad txtLoad : String → List Document)
    (file_path : String) : Except String (List Document) :=
  if endswith file_path ".pdf" then Except.ok (pdfLoad file_path)
  else if endswith file_path ".txt" then Except.ok (txtLoad file_path)
  else Except.error ("Unsupported file type: " ++ file_path)

/-- DocumentProcessor.load_directory (src/document_processor.py lines 29-50):
load all PDF files of the directory, then all text files, concatenating the
results. The two DirectoryLoader calls are external and passed as
parameters. -/
def load_directory (dirPdfLoad dirTxtLoad : String → List Document)
    (directory_path : String) : List Document :=
  dirPdfLoad directory_path ++ dirTxtLoad directory_path

/-- What the filesystem reports for a path: os.path.isfile, os.path.isdir, or
neither. -/
inductive PathKind where
  | file : PathKind
  | dir : PathKind
  | absent : PathKind
deriving DecidableEq

/-- DocumentProcessor.process_documents (src/document_processor.py lines
57-67): load from a file or a directory according to the filesystem, then
split; for a path that is neither an existing file nor an existing directory,
raise ValueError with the message below before any loading or splitting. -/
def process_documents (fs : String → PathKind)
    (pdfLoad txtLoad dirPdfLoad dirTxtLoad : String → List Document)
    (S O : Nat) (source_path : String) : Except String (List Document) :=
  match fs source_path with
  | PathKind.file =>
    match load_documents pdfLoad txtLoad source_path with
    | Except.ok documents => Except.ok (split_documents S O documents)
    | Except.error e => Except.error e
  | PathKind.dir =>
    Except.ok (split_documents S O (load_directory dirPdfLoad dirTxtLoad source_path))
  | PathKind.absent => Except.error ("Invalid path: " ++ source_path)

/-! ## Vector index (claims C3, C4, C5, C9)

Both src/vector_store.py and src/vector_store_completely_free.py keep the
index handle in the attribute `vectorstore`, which is None until the first
write. The Chroma index itself is an external library; its entries are
modelled as the list of added documents in insertion order, and its
k-nearest-neighbor search is modelled from the spec (section 4.3). -/

/-- Modelled from the spec: stable descending insertion by similarity score,
ties broken in favor of the earlier-inserted entry (spec section 4.3). -/
def insertRanked (score : Document → Int) (d : Document) :
    List Document → List Document
  | [] => [d]
  | e :: es => if score e ≤ score d then d :: e :: es else e :: insertRanked score d es

/-- Modelled from the spec: rank all entries by descending score, stably. -/
def rankEntries (score : Document → Int) : List Document → List Document
  | [] => []
  | d :: ds => insertRanked score d (rankEntries score ds)

/-- Modelled from the spec: the external Chroma similarity search (spec
section 4.3) ranks all entries by descending similarity to the query and
returns the first k; on a collection with zero entries it returns the empty
sequence. The scoring function stands for the embedding of query and entry. -/
def chromaSimilaritySearch (score : String → Document → Int)
    (entries : List Document) (query : String) (k : Nat) : List Document :=
  (rankEntries (score query) entries).take k

/-- The error raised by add_documents: the empty-input ValueError of
src/vector_store.py line 50 (identically src/vector_store_completely_free.py
line 56), or an error propagated from the external Chroma backend. -/
inductive AddError where
  | emptyInput : AddError
  | backend : String → AddError
deriving DecidableEq

/-- VectorStore.add_documents (src/vector_store.py lines 47-63, and
identically observable src/vector_store_completely_free.py lines 53-79, which
re-raises any backend exception after logging): raise ValueError when the
document list is empty; otherwise create the collection from the documents or
append to the existing one via the external backend, which may itself fail. -/
def add_documents (backendAdd : List Document → Except String Unit)
    (vectorstore : Option (List Document)) (documents : List Document) :
    Except AddError (Option (List Document)) :=
  if documents.isEmpty then Except.error AddError.emptyInput
  else
    match backendAdd documents with
    | Except.error e => Except.error (AddError.backend e)
    | Except.ok _ =>
      match vectorstore with
      | none => Except.ok (some documents)
      | some entries => Except.ok (some (entries ++ documents))

namespace VectorStorePlain

/-- VectorStore.similarity_search (src/vector_store.py lines 65-71): return
the empty list when no index handle exists, otherwise delegate to the Chroma
search (modelled from the spec, see `chromaSimilaritySearch`). -/
def similarity_search (score : String → Document → Int)
    (vectorstore : Option (List Document)) (query : String) (k : Nat) :
    List Document :=
  match vectorstore with
  | none => []
  | some entries => chromaSimilaritySearch score entries query k

/-- VectorStore.delete_collection (src/vector_store.py lines 83-87): when an
index handle exists, delete the backend collection (an external call modelled
from the spec as succeeding on a live collection) and clear the handle; when
no handle exists, do nothing — in particular no backend call is made, so the
call cannot raise. -/
def delete_collection (vectorstore : Option (List Document)) :
    Option (List Document) :=
  match vectorstore with
  | none => none
  | some _ => none

end VectorStorePlain

namespace VectorStoreFree

/-- VectorStore.similarity_search of the free variant
(src/vector_store_completely_free.py lines 81-93): return the empty list when
no index handle exists; otherwise call the backend search inside try/except
and return the empty list on any backend exception. The backend is a
parameter, so theorems quantify over every possible backend behaviour. -/
def similarity_search
    (backendSearch : List Document → String → Nat → Except String (List Document))
    (vectorstore : Option (List Document)) (query : String) (k : Nat) :
    List Document :=
  match vectorstore with
  | none => []
  | some entries =>
    match backendSearch entries query k with
    | Except.ok results => results
    | Except.error _ => []

/-- A backend for the free similarity_search whose behaviour is the
spec-modelled Chroma search, never raising. -/
def chromaBackend (score : String → Document → Int) :
    List Document → String → Nat → Except String (List Document) :=
  fun entries query k => Except.ok (chromaSimilaritySearch score entries query k)

/-- VectorStore.delete_collection of the free variant
(src/vector_store_completely_free.py lines 105-119): inside try/except,
delete the backend collection when a handle exists (external call modelled
from the spec as succeeding on a live collection), clear the handle and
remove the persist directory; the surrounding except swallows every
exception, so the call never raises. -/
def delete_collection (vectorstore : Option (List Document)) :
    Option (List Document) :=
  match vectorstore with
  | none => none
  | some _ => none

/-- The embeddings object held by the free VectorStore: either the real
HuggingFace model or the FakeEmbeddings fallback. In Python the class of the
object stored in the embeddings attribute is what distinguishes the two. -/
inductive Embeddings where
  | huggingFace : String → Embeddings
  | fake : Nat → Embeddings
deriving DecidableEq

/-- The embedding initialization of VectorStore.__init__
(src/vector_store_completely_free.py lines 17-30): try to load the HuggingFace
model; on any exception substitute FakeEmbeddings of size 384. The load
outcome of the external model is a parameter. -/
def initEmbeddings (loadModel : Except String Unit) : Embeddings :=
  match loadModel with
  | Except.ok _ => Embeddings.huggingFace "sentence-transformers/all-MiniLM-L6-v2"
  | Except.error _ => Embeddings.fake 384

/-- Whether the embeddings attribute holds the fallback object: decidable by
the caller from the stored object alone (in Python, an isinstance check on
the embeddings attribute). -/
def usedFallback : Embeddings → Bool
  | Embeddings.huggingFace _ => false
  | Embeddings.fake _ => true

end VectorStoreFree

/-! ## Answer synthesis (claims C2, C6) -/

/-- The structured result of a query: spec section 4.5. RAGChain.query
(src/rag_chain.py) returns exactly this dictionary shape; for the
retrieval-only path (src/app_local.py) see `simple_rag_response`. -/
structure QueryResult where
  answer : String
  source_documents : List Document
  success : Bool
deriving DecidableEq

/-- RAGChain.query (src/rag_chain.py lines 62-76): run the retrieval-QA chain
inside try/except; on success return the model answer with its source
documents and success true, on any exception return the formatted error
message with no source documents and success false. The chain (retriever
plus generation provider) is a parameter, so theorems quantify over every
possible provider behaviour; the function is total, so no exception ever
reaches the caller. -/
def RAGChain.query
    (qaChain : String → Except String (String × List Document))
    (question : String) : QueryResult :=
  match qaChain question with
  | Except.ok (result, sourceDocs) => ⟨result, sourceDocs, true⟩
  | Except.error e => ⟨"Error processing query: " ++ e, [], false⟩

/-- One source block of the retrieval-only answer (src/app_local.py line 34):
the chunk content truncated to 500 characters with an ellipsis marker when
truncated. -/
def formatSource (entry : Nat × Document) : String :=
  "**Source " ++ toString entry.1 ++ ":**\n" ++ entry.2.pageContent.take 500 ++
    (if entry.2.pageContent.length > 500 then "..." else "")

/-- simple_rag_response (src/app_local.py lines 22-43): retrieve the top-k
chunks inside try/except. The Python function returns the answer string; the
success and source_documents fields of the structured result record, per the
result contract of spec section 4.5 (modelled from the spec for these two
fields), whether the except branch fired and which chunks the answer presents.
The answer strings are the exact strings of the source. -/
def simple_rag_response
    (retrieve : String → Nat → Except String (List Document))
    (question : String) (k : Nat) : QueryResult :=
  match retrieve question k with
  | Except.error e => ⟨"Error searching documents: " ++ e, [], false⟩
  | Except.ok [] =>
    ⟨"I couldn\x27t find any relevant information in the documents to answer your question.",
      [], true⟩
  | Except.ok (d :: ds) =>
    ⟨"Based on your documents, here\x27s what I found:\n\n" ++
      String.intercalate "\n\n---\n\n" ((List.enumFrom 1 (d :: ds)).map formatSource) ++
      "\n\n*Note: This is a simple context retrieval. For AI-generated answers, you need OpenAI credits.*",
      d :: ds, true⟩

/-! ## Helper lemmas for the chunker -/

theorem splitTextAux_head (S O fuel : Nat) (s : List Char) (hf : s.length ≤ fuel) :
    (splitTextAux S O fuel s).head? = some (s.take S) := by
  cases fuel with
  | zero =>
    have hs : s = [] := List.eq_nil_of_length_eq_zero (Nat.le_zero.mp hf)
    subst hs
    simp [splitTextAux]
  | succ fuel =>
    show (if s.length ≤ S then [s]
      else s.take S :: splitTextAux S O fuel (s.drop (S - O))).head? = some (s.take S)
    by_cases h : s.length ≤ S
    · rw [if_pos h, List.take_of_length_le h]
      rfl
    · rw [if_neg h]
      rfl

theorem splitTextAux_sizes (S O : Nat) (hO : O < S) :
    ∀ (fuel : Nat) (s : List Char), s.length ≤ fuel →
      chunksWithinSize S (splitTextAux S O fuel s) = true := by
  intro fuel
  induction fuel with
  | zero =>
    intro s hf
    have hs : s = [] := List.eq_nil_of_length_eq_zero (Nat.le_zero.mp hf)
    subst hs
    simp [chunksWithinSize, splitTextAux]
  | succ fuel ih =>
    intro s hf
    show chunksWithinSize S (if s.length ≤ S then [s]
      else s.take S :: splitTextAux S O fuel (s.drop (S - O))) = true
    by_cases h : s.length ≤ S
    · rw [if_pos h]
      simp [chunksWithinSize, h]
    · rw [if_neg h]
      have hrec := ih (s.drop (S - O)) (by rw [List.length_drop]; omega)
      simp only [chunksWithinSize, List.all_cons, Bool.and_eq_true] at hrec ⊢
      constructor
      · simp only [decide_eq_true_eq, List.length_take]
        omega
      · exact hrec

theorem splitTextAux_overlap (S O : Nat) (hO : O < S) :
    ∀ (fuel : Nat) (s : List Char), s.length ≤ fuel →
      overlapOk O (splitTextAux S O fuel s) = true := by
  intro fuel
  induction fuel with
  | zero =>
    intro s hf
    have hs : s = [] := List.eq_nil_of_length_eq_zero (Nat.le_zero.mp hf)
    subst hs
    rfl
  | succ fuel ih =>
    intro s hf
    show overlapOk O (if s.length ≤ S then [s]
      else s.take S :: splitTextAux S O fuel (s.drop (S - O))) = true
    by_cases h : s.length ≤ S
    · rw [if_pos h]
      rfl
    · rw [if_neg h]
      have htlen : (s.drop (S - O)).length ≤ fuel := by
        rw [List.length_drop]; omega
      have hhead := splitTextAux_head S O fuel (s.drop (S - O)) htlen
      obtain ⟨rest, hrest⟩ :
          ∃ rest, splitTextAux S O fuel (s.drop (S - O)) =
            (s.drop (S - O)).take S :: rest := by
        cases hsp : splitTextAux S O fuel (s.drop (S - O)) with
        | nil => rw [hsp] at hhead; simp at hhead
        | cons a r =>
          rw [hsp] at hhead
          simp only [List.head?_cons, Option.some.injEq] at hhead
          exact ⟨r, by rw [hhead]⟩
      rw [hrest]
      show (((s.take S).drop ((s.take S).length - O) == ((s.drop (S - O)).take S).take O)
        && overlapOk O ((s.drop (S - O)).take S :: rest)) = true
      rw [Bool.and_eq_true]
      constructor
      · rw [beq_iff_eq]
        have hSlen : (s.take S).length = S := by
          rw [List.length_take]
          omega
        rw [hSlen, List.drop_take, List.take_take]
        have h1 : S - (S - O) = O := by omega
        have h2 : min O S = O := Nat.min_eq_left (Nat.le_of_lt hO)
        rw [h1, h2]
      · rw [← hrest]
        exact ih (s.drop (S - O)) htlen

theorem splitText_sizes (S O : Nat) (hO : O < S) (s : List Char) :
    chunksWithinSize S (splitText S O s) = true :=
  splitTextAux_sizes S O hO s.length s (Nat.le_refl _)

theorem splitText_overlap (S O : Nat) (hO : O < S) (s : List Char) :
    overlapOk O (splitText S O s) = true :=
  splitTextAux_overlap S O hO s.length s (Nat.le_refl _)

/-! ## Claim theorems -/

/-- Claim C1: for every chunk_size S and chunk_overlap O with O < S, splitting
any document produces chunks each of content length at most S, and for any two
chunks adjacent in emission order from the same document, the trailing O
characters of the first chunk equal the leading O characters of the second.
Document boundaries are respected because split_documents splits each
document independently and concatenates the results. -/
theorem C1_chunk_size_and_overlap (S O : Nat) (hO : O < S) (s : List Char)
    (docs : List Document) :
    (chunksWithinSize S (splitText S O s) = true ∧
      overlapOk O (splitText S O s) = true) ∧
    ∀ c ∈ split_documents S O docs, c.pageContent.length ≤ S := by
  refine ⟨⟨splitText_sizes S O hO s, splitText_overlap S O hO s⟩, ?_⟩
  intro c hc
  simp only [split_documents, List.mem_flatMap, List.mem_map] at hc
  obtain ⟨d, _, cs, hcs, hc⟩ := hc
  have hall := splitText_sizes S O hO d.pageContent.data
  simp only [chunksWithinSize, List.all_eq_true, decide_eq_true_eq] at hall
  have hlen : cs.length ≤ S := hall cs hcs
  have hcontent : c.pageContent = String.mk cs := by rw [← hc]
  rw [hcontent]
  exact hlen

theorem C1_chunk_size_and_overlap_witness :
    1 < 3 ∧
    chunksWithinSize 3 (splitText 3 1 "abcde".data) = true ∧
    overlapOk 1 (splitText 3 1 "abcde".data) = true :=
  ⟨by decide,
    (C1_chunk_size_and_overlap 3 1 (by decide) "abcde".data []).1.1,
    (C1_chunk_size_and_overlap 3 1 (by decide) "abcde".data []).1.2⟩

/-- Claim C2: for every question, when the generation provider fails in any
way, RAGChain.query returns a structured result with success false, a
non-empty human-readable error description as the answer, and no source
documents; because the function is total, no exception reaches the caller. -/
theorem C2_generative_failure_structured
    (qaChain : String → Except String (String × List Document)) (question e : String)
    (h : qaChain question = Except.error e) :
    (RAGChain.query qaChain question).success = false ∧
    (RAGChain.query qaChain question).source_documents = [] ∧
    (RAGChain.query qaChain question).answer = "Error processing query: " ++ e ∧
    (RAGChain.query qaChain question).answer ≠ "" := by
  have hq : RAGChain.query qaChain question =
      ⟨"Error processing query: " ++ e, [], false⟩ := by
    unfold RAGChain.query
    rw [h]
  refine ⟨by rw [hq], by rw [hq], by rw [hq], ?_⟩
  rw [hq]
  show ("Error processing query: " ++ e) ≠ ""
  intro hc
  have hl := congrArg String.length hc
  rw [String.length_append] at hl
  have h24 : ("Error processing query: " : String).length = 24 := rfl
  have h0 : ("" : String).length = 0 := rfl
  rw [h24, h0] at hl
  omega

theorem C2_generative_failure_structured_witness :
    (RAGChain.query (fun _ => Except.error "rate limit exceeded")
      "What is retrieval augmented generation?").success = false ∧
    (RAGChain.query (fun _ => Except.error "rate limit exceeded")
      "What is retrieval augmented generation?").source_documents = [] ∧
    (RAGChain.query (fun _ => Except.error "rate limit exceeded")
      "What is retrieval augmented generation?").answer =
      "Error processing query: " ++ "rate limit exceeded" ∧
    (RAGChain.query (fun _ => Except.error "rate limit exceeded")
      "What is retrieval augmented generation?").answer ≠ "" :=
  C2_generative_failure_structured (fun _ => Except.error "rate limit exceeded")
    "What is retrieval augmented generation?" "rate limit exceeded" rfl

/-- Claim C3: add_documents fails with the empty-input error exactly when the
given document list is empty; a non-empty list is never rejected for
emptiness (any failure on a non-empty list is a propagated backend error,
a distinct constructor). -/
theorem C3_add_empty_iff
    (backendAdd : List Document → Except String Unit)
    (vectorstore : Option (List Document)) (documents : List Document) :
    add_documents backendAdd vectorstore documents = Except.error AddError.emptyInput ↔
      documents = [] := by
  cases documents with
  | nil => simp [add_documents]
  | cons d ds =>
    cases hb : backendAdd (d :: ds) with
    | error e => simp [add_documents, hb]
    | ok u => cases vectorstore <;> simp [add_documents, hb]

/-- Claim C4: for every query string and every k, searching a collection with
zero entries returns the empty sequence and raises no error — both for the
plain store and the free store, whether the emptiness is the absent index
handle or an existing index with zero entries. Totality of the definitions
means no error can be raised. -/
theorem C4_search_empty_collection (score : String → Document → Int)
    (query : String) (k : Nat) :
    VectorStorePlain.similarity_search score none query k = [] ∧
    VectorStorePlain.similarity_search score (some []) query k = [] ∧
    VectorStoreFree.similarity_search (VectorStoreFree.chromaBackend score)
      none query k = [] ∧
    VectorStoreFree.similarity_search (VectorStoreFree.chromaBackend score)
      (some []) query k = [] := by
  refine ⟨rfl, ?_, rfl, ?_⟩ <;>
    simp [VectorStorePlain.similarity_search, VectorStoreFree.similarity_search,
      VectorStoreFree.chromaBackend, chromaSimilaritySearch, rankEntries]

/-- Claim C5: delete_collection is idempotent, does not raise on an already
empty or deleted collection (with no index handle the backend is not even
called, and the free variant swallows every exception), and after any
delete_collection call a search on the same instance returns the empty
result — for the plain store and the free store, the latter under every
possible backend search behaviour. -/
theorem C5_delete_idempotent_then_empty_search
    (score : String → Document → Int)
    (backendSearch : List Document → String → Nat → Except String (List Document))
    (vectorstore : Option (List Document)) (query : String) (k : Nat) :
    VectorStorePlain.delete_collection (VectorStorePlain.delete_collection vectorstore) =
      VectorStorePlain.delete_collection vectorstore ∧
    VectorStorePlain.delete_collection none = none ∧
    VectorStorePlain.similarity_search score
      (VectorStorePlain.delete_collection vectorstore) query k = [] ∧
    VectorStoreFree.delete_collection (VectorStoreFree.delete_collection vectorstore) =
      VectorStoreFree.delete_collection vectorstore ∧
    VectorStoreFree.delete_collection none = none ∧
    VectorStoreFree.similarity_search backendSearch
      (VectorStoreFree.delete_collection vectorstore) query k = [] := by
  cases vectorstore <;>
    simp [VectorStorePlain.delete_collection, VectorStoreFree.delete_collection,
      VectorStorePlain.similarity_search, VectorStoreFree.similarity_search]

/-- Claim C6: in retrieval-only mode, when zero chunks are retrieved, the
query returns success true, no source chunks, and the answer stating that no
relevant information was found; the outcome is not the error branch. -/
theorem C6_retrieval_only_zero_chunks
    (retrieve : String → Nat → Except String (List Document))
    (question : String) (k : Nat) (h : retrieve question k = Except.ok []) :
    (simple_rag_response retrieve question k).success = true ∧
    (simple_rag_response retrieve question k).source_documents = [] ∧
    (simple_rag_response retrieve question k).answer =
      "I couldn\x27t find any relevant information in the documents to answer your question." := by
  have hq : simple_rag_response retrieve question k =
      ⟨"I couldn\x27t find any relevant information in the documents to answer your question.",
        [], true⟩ := by
    unfold simple_rag_response
    rw [h]
  exact ⟨by rw [hq], by rw [hq], by rw [hq]⟩

theorem C6_retrieval_only_zero_chunks_witness :
    (simple_rag_response (fun _ _ => Except.ok []) "anything" 3).success = true ∧
    (simple_rag_response (fun _ _ => Except.ok []) "anything" 3).source_documents = [] ∧
    (simple_rag_response (fun _ _ => Except.ok []) "anything" 3).answer =
      "I couldn\x27t find any relevant information in the documents to answer your question." :=
  C6_retrieval_only_zero_chunks (fun _ _ => Except.ok []) "anything" 3 rfl

/-- Claim C7 counterexample: a supported .txt file whose loader yields a
single document with zero extractable characters loads successfully — no
EmptyContent failure exists in load_documents, contradicting the claim that
it fails with EmptyContent when the source yields zero extractable
characters. -/
theorem C7_counterexample :
    load_documents (fun _ => []) (fun _ => [⟨"", "scan.txt"⟩]) "scan.txt" =
      Except.ok [⟨"", "scan.txt"⟩] ∧
    (Document.mk "" "scan.txt").pageContent.length = 0 := by
  exact ⟨rfl, rfl⟩

/-- Claim C7 amended: load_documents fails with the unsupported-file-type
error exactly when the extension is neither .pdf nor .txt; for a supported
file it returns whatever the loader extracts, with no error — in particular
there is no empty-content failure: the only possible error is the
unsupported-file-type one. -/
theorem C7_unsupported_only_error
    (pdfLoad txtLoad : String → List Document) (file_path : String) :
    (endswith file_path ".pdf" = true →
      load_documents pdfLoad txtLoad file_path = Except.ok (pdfLoad file_path)) ∧
    (endswith file_path ".pdf" = false → endswith file_path ".txt" = true →
      load_documents pdfLoad txtLoad file_path = Except.ok (txtLoad file_path)) ∧
    (endswith file_path ".pdf" = false → endswith file_path ".txt" = false →
      load_documents pdfLoad txtLoad file_path =
        Except.error ("Unsupported file type: " ++ file_path)) ∧
    (∀ e, load_documents pdfLoad txtLoad file_path = Except.error e →
      e = "Unsupported file type: " ++ file_path) := by
  refine ⟨?_, ?_, ?_, ?_⟩
  · intro h1
    simp [load_documents, h1]
  · intro h1 h2
    simp [load_documents, h1, h2]
  · intro h1 h2
    simp [load_documents, h1, h2]
  · intro e he
    by_cases h1 : endswith file_path ".pdf" = true
    · simp [load_documents, h1] at he
    · rw [Bool.not_eq_true] at h1
      by_cases h2 : endswith file_path ".txt" = true
      · simp [load_documents, h1, h2] at he
      · rw [Bool.not_eq_true] at h2
        simp [load_documents, h1, h2] at he
        exact he.symm

theorem C7_unsupported_only_error_witness :
    endswith "notes.md" ".pdf" = false ∧ endswith "notes.md" ".txt" = false ∧
    load_documents (fun _ => []) (fun _ => []) "notes.md" =
      Except.error ("Unsupported file type: " ++ "notes.md") :=
  ⟨by decide, by decide,
    (C7_unsupported_only_error (fun _ => []) (fun _ => []) "notes.md").2.2.1
      (by decide) (by decide)⟩

/-- Claim C8: when the local embedding model fails to load, the free
VectorStore stores the FakeEmbeddings fallback object in its embeddings
attribute; that stored value is observable by the caller and indicates the
fallback exactly when the load failed, so fallback embeddings are never
indistinguishable from real ones. -/
theorem C8_fallback_flag_observable (loadModel : Except String Unit) :
    (VectorStoreFree.usedFallback (VectorStoreFree.initEmbeddings loadModel) = true ↔
      ∃ e, loadModel = Except.error e) ∧
    (∀ e, VectorStoreFree.initEmbeddings (Except.error e) =
      VectorStoreFree.Embeddings.fake 384) ∧
    VectorStoreFree.usedFallback
      (VectorStoreFree.Embeddings.huggingFace "sentence-transformers/all-MiniLM-L6-v2") =
        false := by
  refine ⟨?_, fun e => rfl, rfl⟩
  cases loadModel with
  | ok u =>
    simp [VectorStoreFree.initEmbeddings, VectorStoreFree.usedFallback]
  | error e =>
    simp [VectorStoreFree.initEmbeddings, VectorStoreFree.usedFallback]

/-- Claim C9: the free similarity_search is total over backend failures: for
every query and k, whenever the underlying index search raises, the operation
returns the empty list instead of propagating the exception. -/
theorem C9_free_search_catches_backend_errors
    (backendSearch : List Document → String → Nat → Except String (List Document))
    (entries : List Document) (query : String) (k : Nat) (e : String)
    (h : backendSearch entries query k = Except.error e) :
    VectorStoreFree.similarity_search backendSearch (some entries) query k = [] := by
  simp [VectorStoreFree.similarity_search, h]

theorem C9_free_search_catches_backend_errors_witness :
    VectorStoreFree.similarity_search (fun _ _ _ => Except.error "chroma backend exception")
      (some []) "any query" 4 = [] :=
  C9_free_search_catches_backend_errors
    (fun _ _ _ => Except.error "chroma backend exception") [] "any query" 4
    "chroma backend exception" rfl

/-- Claim C10: for every source_path that is neither an existing file nor an
existing directory, process_documents fails with the invalid-path ValueError;
the result does not depend on any loader or on the splitter parameters, so
nothing is loaded or split. -/
theorem C10_invalid_path_before_loading
    (fs : String → PathKind)
    (pdfLoad txtLoad dirPdfLoad dirTxtLoad pdfLoadB txtLoadB dirPdfLoadB dirTxtLoadB :
      String → List Document)
    (S O SB OB : Nat) (source_path : String)
    (h : fs source_path = PathKind.absent) :
    process_documents fs pdfLoad txtLoad dirPdfLoad dirTxtLoad S O source_path =
      Except.error ("Invalid path: " ++ source_path) ∧
    process_documents fs pdfLoad txtLoad dirPdfLoad dirTxtLoad S O source_path =
      process_documents fs pdfLoadB txtLoadB dirPdfLoadB dirTxtLoadB SB OB source_path := by
  constructor <;> simp [process_documents, h]

theorem C10_invalid_path_before_loading_witness :
    process_documents (fun _ => PathKind.absent) (fun _ => []) (fun _ => [])
      (fun _ => []) (fun _ => []) 1000 200 "no_such_path" =
      Except.error ("Invalid path: " ++ "no_such_path") :=
  (C10_invalid_path_before_loading (fun _ => PathKind.absent) (fun _ => []) (fun _ => [])
    (fun _ => []) (fun _ => []) (fun _ => []) (fun _ => []) (fun _ => []) (fun _ => [])
    1000 200 1000 200 "no_such_path" rfl).1

end Rag
